import Mathlib

/-!
Verification of the request-routing core of the `rs-serve` repository
(crates/suika_server/src/router/router.rs), as a shallow embedding.

Modelling conventions:
* Rust strings are modelled as Lean `String`s viewed as sequences of
  characters; Rust byte indices become character indices (all paths in
  the development are ASCII, where the two coincide).  A Rust slice
  `s[n..]` panics when `n` is out of bounds; the model returns `none`
  there (`stripLocal`).
* `HttpError` (crate file not under the router source) is modelled by
  its display string, which is all `Router::route` ever uses of it.
* Response mutation through `Arc` is modelled by explicit state
  passing: a handler receives the current `Response` and returns the
  mutated one together with its `Result`.
* The `NextMiddleware` argument is never inspected by `Router::route`
  itself (it is forwarded to the handler unchanged), so handlers in the
  model simply close over whatever continuation behaviour they need.
-/

/-- A parsed HTTP request, as consumed by the router: `req.path()` and
`req.method()`. -/
structure Request where
  path : String
  method : String
deriving DecidableEq, Repr

/-- The response state the router and handlers mutate: status code and
body. -/
structure Response where
  status : Nat
  body : String
deriving DecidableEq, Repr

/-- `res.set_status(code)`. -/
def Response.set_status (res : Response) (code : Nat) : Response :=
  { res with status := code }

/-- `res.body(s)`. -/
def Response.setBody (res : Response) (s : String) : Response :=
  { res with body := s }

/-- A route handler: `Fn(Arc<Request>, Arc<Response>, Arc<NextMiddleware>)
-> Result<(), HttpError>`, with the response mutation made explicit. -/
abbrev Handler := Request → Response → Except String Unit × Response

/-- Modelled from the spec: the `Route` struct (its crate file route.rs is
not under the router source; only `router.rs` uses it).  Per the spec a
Route is an immutable binding of method, path pattern and handler, with
the pattern compiled once into a reusable matcher.  The compiled regex is
abstracted as the Boolean predicate `regex`, which is all `Router::route`
calls on it (`route.regex.is_match(&path)`). -/
structure Route where
  method : String
  path : String
  regex : String → Bool
  handler : Handler

/-- Character-level model of `str::starts_with`: `strStartsWithAux
s.data p.data` checks that `p` is a leading subsequence of `s`. -/
def strStartsWithAux : List Char → List Char → Bool
  | _, [] => true
  | [], _ :: _ => false
  | a :: as2, b :: bs => a == b && strStartsWithAux as2 bs

/-- `s.starts_with(p)` on the character model. -/
def strStartsWith (s p : String) : Bool :=
  strStartsWithAux s.data p.data

/-- The mount-stripping computation of `Router::route` line 96:
`format!("/{}", full_path[mounted.len()..].trim_start_matches('/'))`.
Returns `none` exactly when the Rust slice would panic (index past the
end of the string). -/
def stripLocal (mountedP full : String) : Option String :=
  if mountedP.length ≤ full.length then
    some (String.mk ('/' :: ((full.data.drop mountedP.length).dropWhile (fun c => c == '/'))))
  else
    none

/-- The local path used for matching (`Router::route` lines 93–97): the
full path unchanged for an unmounted router, otherwise the stripped
path. -/
def localPath (mountedP full : String) : Option String :=
  if mountedP.isEmpty then some full else stripLocal mountedP full

/-- The handler invocation of `Router::route` lines 104–110 and 119–125:
run the handler; on `Err(e)` overwrite status with 500 and body with the
descriptive message; the surrounding future resolves `Ok(())` either
way. -/
def runHandler (h : Handler) (req : Request) (res : Response) : Response :=
  match h req res with
  | (Except.ok _, res1) => res1
  | (Except.error e, res1) =>
      { res1 with status := 500, body := "Internal Server Error: " ++ e }

/-- The fallback of `Router::route` lines 136–140. -/
def notFound (res : Response) : Response :=
  { res with status := 404, body := "Not Found" }

/-- The exact-route test of line 101: `&route.method == method &&
route.path == path`. -/
def exactMatches (req : Request) (path : String) (rt : Route) : Bool :=
  rt.method == req.method && rt.path == path

/-- The pattern-route test of line 116: `&route.method == method &&
route.regex.is_match(&path)`. -/
def regexMatches (req : Request) (path : String) (rt : Route) : Bool :=
  rt.method == req.method && rt.regex path

mutual

/-- The `Router` struct: ordered exact routes, ordered pattern routes,
ordered mounted children (`Vec<(String, Arc<Router>)>`, the `Arc`
sharing being semantically transparent) and the mount prefix. -/
inductive Router : Type where
  | mk : List Route → List Route → RouterList → String → Router

/-- The `nested_routers` vector, as a list of (mount point, child)
pairs; spelled as its own inductive so that mutual structural recursion
with `Router` is available. -/
inductive RouterList : Type where
  | nil : RouterList
  | cons : String → Router → RouterList → RouterList

end

/-- Field accessor for `specific_routes`. -/
def Router.specific_routes : Router → List Route
  | Router.mk s _ _ _ => s

/-- Field accessor for `regex_routes`. -/
def Router.regex_routes : Router → List Route
  | Router.mk _ r _ _ => r

/-- Field accessor for `nested_routers`. -/
def Router.nested_routers : Router → RouterList
  | Router.mk _ _ n _ => n

/-- Field accessor for `mounted`. -/
def Router.mountPoint : Router → String
  | Router.mk _ _ _ m => m

/-- `Router::new()`. -/
def Router.new : Router :=
  Router.mk [] [] RouterList.nil ""

/-- `Router::add_route` (lines 27–37): a path containing the character
`*` goes to `regex_routes`, any other path to `specific_routes`.  The
compiled matcher of the pattern is passed in explicitly, since `Route::new`
compiles it outside the router source. -/
def Router.add_route (r : Router) (method path : String)
    (matcher : String → Bool) (h : Handler) : Router :=
  match r with
  | Router.mk s rg n m =>
    if path.data.contains '*' then
      Router.mk s (rg ++ [⟨method, path, matcher, h⟩]) n m
    else
      Router.mk (s ++ [⟨method, path, matcher, h⟩]) rg n m

/-- Overwriting the `mounted` field, as `use_router` does on the child
(line 81). -/
def Router.withMounted : Router → String → Router
  | Router.mk s rg n _, p => Router.mk s rg n p

/-- List concatenation on `RouterList`. -/
def RouterList.append : RouterList → RouterList → RouterList
  | RouterList.nil, l2 => l2
  | RouterList.cons a b rest, l2 => RouterList.cons a b (rest.append l2)

/-- `Router::use_router(path, router)` (lines 79–83): set the child's
`mounted` field to the path and push the pair onto `nested_routers`. -/
def Router.use_router (r : Router) (path : String) (child : Router) : Router :=
  match r with
  | Router.mk s rg n m =>
    Router.mk s rg
      (RouterList.append n (RouterList.cons path (child.withMounted path) RouterList.nil)) m

mutual

/-- `Router::route` (lines 85–141).  `none` models a panic of the path
slicing; otherwise the returned value is the `Result` of the resolved
future together with the final response state. -/
def Router.route : Router → Request → Response → Option (Except String Response)
  | Router.mk specific regexR nested mountedP, req, res =>
    match localPath mountedP req.path with
    | none => none
    | some path =>
      match List.find? (exactMatches req path) specific with
      | some rt => some (Except.ok (runHandler rt.handler req res))
      | none =>
        match List.find? (regexMatches req path) regexR with
        | some rt => some (Except.ok (runHandler rt.handler req res))
        | none => RouterList.routeNested nested req res

/-- The nested-router scan of lines 130–134 followed by the 404 fallback
of lines 136–140: delegate to the first child whose mount point is a
prefix of the full (unstripped) request path. -/
def RouterList.routeNested : RouterList → Request → Response → Option (Except String Response)
  | RouterList.nil, _, res => some (Except.ok (notFound res))
  | RouterList.cons pfx child rest, req, res =>
    if strStartsWith req.path pfx then Router.route child req res
    else RouterList.routeNested rest req res

end

/-- `Router::handle` (lines 143–150) simply forwards to `route`. -/
def Router.handle (r : Router) (req : Request) (res : Response) :
    Option (Except String Response) :=
  Router.route r req res

/-- Does some child's mount point prefix the given full path?  (The scan
condition of lines 130–134.) -/
def RouterList.anyPrefixOf : RouterList → String → Bool
  | RouterList.nil, _ => false
  | RouterList.cons pfx _ rest, full =>
    strStartsWith full pfx || rest.anyPrefixOf full

mutual

/-- Well-formedness of a router value as produced by the public API:
every mounted child's `mounted` field equals the mount point it is
stored under (which `use_router` establishes). -/
def Router.wfb : Router → Bool
  | Router.mk _ _ nested _ => RouterList.wfb nested

/-- Well-formedness of a nested-router list. -/
def RouterList.wfb : RouterList → Bool
  | RouterList.nil => true
  | RouterList.cons pfx child rest =>
    (Router.mountPoint child == pfx) && Router.wfb child && RouterList.wfb rest

end

/-! ## Basic facts about the string helpers -/

/-- A successful prefix check bounds the pattern's length. -/
theorem strStartsWithAux_length : ∀ (l p : List Char),
    strStartsWithAux l p = true → p.length ≤ l.length
  | _, [], _ => Nat.zero_le _
  | [], _ :: _, h => by simp [strStartsWithAux] at h
  | a :: as2, b :: bs, h => by
    simp [strStartsWithAux] at h
    exact Nat.succ_le_succ (strStartsWithAux_length as2 bs h.2)

/-- If the mount point prefixes the full path, the local-path
computation succeeds. -/
theorem localPath_isSome_of_startsWith (pfx full : String)
    (h : strStartsWith full pfx = true) : (localPath pfx full).isSome = true := by
  have hlen : pfx.length ≤ full.length :=
    strStartsWithAux_length full.data pfx.data h
  unfold localPath stripLocal
  cases he : pfx.isEmpty <;> simp [he, hlen]

/-- When no child's mount point prefixes the full path, the nested scan
falls through to the 404 fallback. -/
theorem routeNested_eq_notFound : ∀ (l : RouterList) (req : Request) (res : Response),
    RouterList.anyPrefixOf l req.path = false →
    RouterList.routeNested l req res = some (Except.ok (notFound res))
  | RouterList.nil, _, _, _ => rfl
  | RouterList.cons pfx child rest, req, res, h => by
    simp [RouterList.anyPrefixOf] at h
    simp [RouterList.routeNested, h.1, routeNested_eq_notFound rest req res h.2]

/-! ## Concrete handlers, routes and routers used as witnesses -/

/-- A handler that answers 200 with body "A". -/
def handlerA : Handler := fun _ res => (Except.ok (), { res with status := 200, body := "A" })

/-- A handler that answers 200 with body "B". -/
def handlerB : Handler := fun _ res => (Except.ok (), { res with status := 200, body := "B" })

/-- A handler that fails with message "boom". -/
def handlerBoom : Handler := fun _ res => (Except.error "boom", res)

/-- An exact route for GET /a. -/
def routeA : Route := ⟨"GET", "/a", fun _ => false, handlerA⟩

/-- A pattern route for GET /.* (the pattern contains a `*`, so
`add_route` files it under `regex_routes`); its matcher accepts every
path. -/
def routeStarB : Route := ⟨"GET", "/.*", fun _ => true, handlerB⟩

/-- An exact route for GET /a whose handler fails. -/
def routeABoom : Route := ⟨"GET", "/a", fun _ => false, handlerBoom⟩

/-! ## C1–C3 -/

/-- C1: for every router with a registered exact route and every request
whose method and local path (after mount-prefix stripping) select that
exact route, resolution returns that route's handler result, whatever
pattern routes are registered: exact matching is attempted before
pattern matching. -/
theorem c1_exact_route_precedence (specific regexR : List Route) (nested : RouterList)
    (mountedP : String) (req : Request) (res : Response) (rt : Route) (path : String)
    (hpath : localPath mountedP req.path = some path)
    (hfind : List.find? (exactMatches req path) specific = some rt) :
    Router.route (Router.mk specific regexR nested mountedP) req res
      = some (Except.ok (runHandler rt.handler req res)) := by
  simp [Router.route, hpath, hfind]

/-- Witness for C1 at a concrete router: the exact route GET /a beats an
earlier-registered catch-all pattern route. -/
theorem c1_witness :
    List.find? (exactMatches ⟨"/a", "GET"⟩ "/a") [routeA] = some routeA ∧
    Router.route (Router.mk [routeA] [routeStarB] RouterList.nil "") ⟨"/a", "GET"⟩ ⟨0, ""⟩
      = some (Except.ok (runHandler routeA.handler ⟨"/a", "GET"⟩ ⟨0, ""⟩)) :=
  ⟨rfl, c1_exact_route_precedence [routeA] [routeStarB] RouterList.nil ""
    ⟨"/a", "GET"⟩ ⟨0, ""⟩ routeA "/a" rfl rfl⟩

/-- C2: when the resolved route's handler (exact or pattern) returns an
error `e`, the router sets status 500 and body
"Internal Server Error: " ++ e on the response, and its own result is
`Ok`. -/
theorem c2_handler_error_becomes_500 (specific regexR : List Route) (nested : RouterList)
    (mountedP : String) (req : Request) (res : Response) (rt : Route) (path : String)
    (e : String) (res1 : Response)
    (hpath : localPath mountedP req.path = some path)
    (hsel : List.find? (exactMatches req path) specific = some rt ∨
      (List.find? (exactMatches req path) specific = none ∧
       List.find? (regexMatches req path) regexR = some rt))
    (herr : rt.handler req res = (Except.error e, res1)) :
    Router.route (Router.mk specific regexR nested mountedP) req res
      = some (Except.ok { res1 with status := 500, body := "Internal Server Error: " ++ e }) := by
  have hrun : runHandler rt.handler req res
      = { res1 with status := 500, body := "Internal Server Error: " ++ e } := by
    simp [runHandler, herr]
  rcases hsel with hfind | ⟨hnone, hfind⟩
  · simp [Router.route, hpath, hfind, hrun]
  · simp [Router.route, hpath, hfind, hnone, hrun]

/-- Witness for C2 at a concrete router: a failing exact-route handler
produces a 500 with the descriptive body while the router resolves
successfully. -/
theorem c2_witness :
    routeABoom.handler ⟨"/a", "GET"⟩ ⟨0, ""⟩ = (Except.error "boom", ⟨0, ""⟩) ∧
    Router.route (Router.mk [routeABoom] [] RouterList.nil "") ⟨"/a", "GET"⟩ ⟨0, ""⟩
      = some (Except.ok ⟨500, "Internal Server Error: boom"⟩) :=
  ⟨rfl, c2_handler_error_becomes_500 [routeABoom] [] RouterList.nil ""
    ⟨"/a", "GET"⟩ ⟨0, ""⟩ routeABoom "/a" "boom" ⟨0, ""⟩ rfl (Or.inl rfl) rfl⟩

/-- C3: when no exact route matches, no pattern route matches and no
mounted child's mount point prefixes the full path, the router answers
status 404 with body exactly "Not Found" and resolves successfully. -/
theorem c3_unmatched_is_404 (specific regexR : List Route) (nested : RouterList)
    (mountedP : String) (req : Request) (res : Response) (path : String)
    (hpath : localPath mountedP req.path = some path)
    (hs : List.find? (exactMatches req path) specific = none)
    (hr : List.find? (regexMatches req path) regexR = none)
    (hn : RouterList.anyPrefixOf nested req.path = false) :
    Router.route (Router.mk specific regexR nested mountedP) req res
      = some (Except.ok { res with status := 404, body := "Not Found" }) := by
  simp [Router.route, hpath, hs, hr,
    routeNested_eq_notFound nested req res hn, notFound]

/-- Witness for C3: a router with one exact route, one pattern route
whose matcher rejects the path, and one mounted child under a different
mount point answers 404 "Not Found". -/
theorem c3_witness :
    RouterList.anyPrefixOf (RouterList.cons "/api" Router.new RouterList.nil) "/zzz" = false ∧
    Router.route
        (Router.mk [routeA] [⟨"GET", "/b*", fun _ => false, handlerB⟩]
          (RouterList.cons "/api" Router.new RouterList.nil) "")
        ⟨"/zzz", "GET"⟩ ⟨0, ""⟩
      = some (Except.ok ⟨404, "Not Found"⟩) :=
  ⟨rfl, c3_unmatched_is_404 [routeA] [⟨"GET", "/b*", fun _ => false, handlerB⟩]
    (RouterList.cons "/api" Router.new RouterList.nil) ""
    ⟨"/zzz", "GET"⟩ ⟨0, ""⟩ "/zzz" rfl rfl rfl rfl⟩

/-! ## C4 and C5: named-capture patterns -/

/-- The named-capture pattern from the spec's round-trip property and
from the repository's own example crate
(suika_example/src/main.rs line 195). -/
def capturePat : String := "/items/(?P<id>\\d+)$"

/-- A plausible compiled matcher for `capturePat`: the path is
"/items/" followed by one or more digits. -/
def itemsMatcher : String → Bool := fun s =>
  strStartsWith s "/items/" && (s.data.drop 7 ≠ []) && (s.data.drop 7).all Char.isDigit

/-- A handler echoing the requested item. -/
def handlerItems : Handler := fun _ res =>
  (Except.ok (), { res with status := 200, body := "item" })

/-- A router holding only the registration of `capturePat`. -/
def itemsRouter : Router :=
  Router.add_route Router.new "GET" capturePat itemsMatcher handlerItems

/-- C4, code evaluated at the failing input: registering the
named-capture pattern `/items/(?P<id>\d+)$` — which contains no `*` —
files it under `specific_routes` (exact literal matching), not under
`regex_routes`, though the claim requires every named-capture pattern
to be dynamic. -/
theorem c4_code_at_failing_input :
    itemsRouter.specific_routes.length = 1 ∧
    itemsRouter.regex_routes = [] ∧
    (itemsRouter.specific_routes.map Route.path) = [capturePat] := by
  refine ⟨rfl, rfl, rfl⟩

/-- C5, code evaluated at the failing input: with `capturePat`
registered, a GET request for "/items/42" — accepted by the pattern's
matcher — is answered 404 "Not Found": the route was filed as exact, so
it is compared literally and never matches, and no capture is ever
populated (`Router::route` extracts no captures anywhere). -/
theorem c5_code_at_failing_input :
    itemsMatcher "/items/42" = true ∧
    Router.route itemsRouter ⟨"/items/42", "GET"⟩ ⟨0, ""⟩
      = some (Except.ok ⟨404, "Not Found"⟩) := by
  refine ⟨by decide, rfl⟩

/-! ## C6: first-registered pattern route wins -/

set_option linter.unusedVariables false in
/-- C6: with pattern routes [p1, p2] registered in that order, both
accepting the request's method and local path, and no exact route
matching, resolution invokes p1's handler. -/
theorem c6_first_pattern_wins (specific : List Route) (nested : RouterList)
    (mountedP : String) (p1 p2 : Route) (req : Request) (res : Response) (path : String)
    (hpath : localPath mountedP req.path = some path)
    (hs : List.find? (exactMatches req path) specific = none)
    (h1 : regexMatches req path p1 = true)
    (h2 : regexMatches req path p2 = true) :
    Router.route (Router.mk specific [p1, p2] nested mountedP) req res
      = some (Except.ok (runHandler p1.handler req res)) := by
  simp [Router.route, hpath, hs, List.find?, h1]

/-- A pattern route for GET /x* answering "B1"; its matcher accepts
every path under /x. -/
def routeXStar1 : Route :=
  ⟨"GET", "/x*", fun s => strStartsWith s "/x",
    fun _ res => (Except.ok (), { res with status := 200, body := "B1" })⟩

/-- A pattern route for GET /x/y* answering "B2". -/
def routeXStar2 : Route :=
  ⟨"GET", "/x/y*", fun s => strStartsWith s "/x/y",
    fun _ res => (Except.ok (), { res with status := 200, body := "B2" })⟩

/-- Witness for C6: both matchers accept "/x/y", and the
first-registered (less specific) route answers. -/
theorem c6_witness :
    regexMatches ⟨"/x/y", "GET"⟩ "/x/y" routeXStar1 = true ∧
    regexMatches ⟨"/x/y", "GET"⟩ "/x/y" routeXStar2 = true ∧
    Router.route (Router.mk [] [routeXStar1, routeXStar2] RouterList.nil "")
        ⟨"/x/y", "GET"⟩ ⟨0, ""⟩
      = some (Except.ok (runHandler routeXStar1.handler ⟨"/x/y", "GET"⟩ ⟨0, ""⟩)) :=
  ⟨rfl, rfl, c6_first_pattern_wins [] RouterList.nil "" routeXStar1 routeXStar2
    ⟨"/x/y", "GET"⟩ ⟨0, ""⟩ "/x/y" rfl rfl rfl rfl⟩

/-! ## C7: delegation to the first mounted child whose mount point
prefixes the full path -/

/-- Scanning a nested-router list whose leading section has no matching
mount point delegates to the first child whose mount point prefixes the
full path. -/
theorem routeNested_append_delegates : ∀ (n1 : RouterList) (n2 : RouterList)
    (pfx : String) (child : Router) (req : Request) (res : Response),
    RouterList.anyPrefixOf n1 req.path = false →
    strStartsWith req.path pfx = true →
    RouterList.routeNested (RouterList.append n1 (RouterList.cons pfx child n2)) req res
      = Router.route child req res
  | RouterList.nil, n2, pfx, child, req, res, _, hc => by
    simp [RouterList.append, RouterList.routeNested, hc]
  | RouterList.cons q qr rest, n2, pfx, child, req, res, h1, hc => by
    simp [RouterList.anyPrefixOf] at h1
    simp [RouterList.append, RouterList.routeNested, h1.1,
      routeNested_append_delegates rest n2 pfx child req res h1.2 hc]

/-- C7: if no local route matches and the full path starts with the
mount point of a mounted child preceded only by children whose mount
points do not prefix the full path, the parent returns that child's
resolution (which, inside the child, matches against the
prefix-stripped path). -/
theorem c7_mount_delegation (specific regexR : List Route) (n1 n2 : RouterList)
    (mountedP pfx : String) (child : Router) (req : Request) (res : Response) (path : String)
    (hpath : localPath mountedP req.path = some path)
    (hs : List.find? (exactMatches req path) specific = none)
    (hr : List.find? (regexMatches req path) regexR = none)
    (hn1 : RouterList.anyPrefixOf n1 req.path = false)
    (hc : strStartsWith req.path pfx = true) :
    Router.route
        (Router.mk specific regexR (RouterList.append n1 (RouterList.cons pfx child n2)) mountedP)
        req res
      = Router.route child req res := by
  simp [Router.route, hpath, hs, hr,
    routeNested_append_delegates n1 n2 pfx child req res hn1 hc]

/-- A child router with the exact route GET /v1/x. -/
def childV1X : Router :=
  Router.add_route Router.new "GET" "/v1/x" (fun _ => false)
    (fun _ res => (Except.ok (), { res with status := 200, body := "v1x" }))

/-- The child as stored by `use_router "/api"`: its `mounted` field is
the mount point. -/
def childV1XMounted : Router := Router.withMounted childV1X "/api"

/-- A root router with `childV1X` mounted at "/api". -/
def rootApi : Router := Router.use_router Router.new "/api" childV1X

/-- Witness for C7: a GET for the full path "/api/v1/x" on the root is
delegated to the mounted child, and the child — matching against the
stripped local path "/v1/x" — selects its exact route. -/
theorem c7_witness :
    strStartsWith "/api/v1/x" "/api" = true ∧
    Router.route rootApi ⟨"/api/v1/x", "GET"⟩ ⟨0, ""⟩
      = Router.route childV1XMounted ⟨"/api/v1/x", "GET"⟩ ⟨0, ""⟩ ∧
    Router.route childV1XMounted ⟨"/api/v1/x", "GET"⟩ ⟨0, ""⟩
      = some (Except.ok ⟨200, "v1x"⟩) :=
  ⟨rfl,
    c7_mount_delegation [] [] RouterList.nil RouterList.nil "" "/api" childV1XMounted
      ⟨"/api/v1/x", "GET"⟩ ⟨0, ""⟩ "/api/v1/x" rfl rfl rfl rfl rfl,
    rfl⟩

/-! ## C8: multi-level mounting -/

/-- The grandchild's handler. -/
def handlerGX : Handler := fun _ res => (Except.ok (), { res with status := 200, body := "gx" })

/-- A grandchild router with the exact route GET /x. -/
def grandchildX : Router :=
  Router.add_route Router.new "GET" "/x" (fun _ => false) handlerGX

/-- A middle router with `grandchildX` mounted at "/v1". -/
def childMid : Router := Router.use_router Router.new "/v1" grandchildX

/-- The root with `childMid` mounted at "/api". -/
def root8 : Router := Router.use_router Router.new "/api" childMid

/-- `localPath` of an unmounted router is the full path unchanged. -/
theorem localPath_empty (full : String) : localPath "" full = some full := rfl

/-- C8 counterexample: with the grandchild mounted at "/v1" inside a
child mounted at "/api" and a grandchild route "/x", the request for
the composed full path "/api/v1/x" is answered 404 "Not Found" — not by
the grandchild's handler, whose result differs. -/
theorem c8_counterexample :
    Router.route root8 ⟨"/api/v1/x", "GET"⟩ ⟨0, ""⟩
      = some (Except.ok ⟨404, "Not Found"⟩) ∧
    (⟨404, "Not Found"⟩ : Response) ≠ runHandler handlerGX ⟨"/api/v1/x", "GET"⟩ ⟨0, ""⟩ :=
  ⟨rfl, by decide⟩

/-- C8 amended: multi-level mounting does not compose.  The child tests
its own children's mount points against the original full path, so
whenever the full path does not itself start with the grandchild's
mount point, the request reaching the child falls through to the 404
fallback instead of the grandchild. -/
theorem c8_amended_mount_does_not_compose (p1 p2 : String) (g : Router)
    (req : Request) (res : Response)
    (h1 : strStartsWith req.path p1 = true)
    (h2 : strStartsWith req.path p2 = false) :
    Router.route (Router.use_router Router.new p1 (Router.use_router Router.new p2 g)) req res
      = some (Except.ok { res with status := 404, body := "Not Found" }) := by
  have hloc : (localPath p1 req.path).isSome = true :=
    localPath_isSome_of_startsWith p1 req.path h1
  obtain ⟨path, hpath⟩ := Option.isSome_iff_exists.mp hloc
  simp only [Router.use_router, Router.new, Router.withMounted, RouterList.append]
  simp [Router.route, RouterList.routeNested, localPath_empty, h1, h2, hpath, notFound]

/-- Witness for C8's amended statement at the concrete three-level
router of the counterexample. -/
theorem c8_witness :
    strStartsWith "/api/v1/x" "/api" = true ∧
    strStartsWith "/api/v1/x" "/v1" = false ∧
    Router.route (Router.use_router Router.new "/api" (Router.use_router Router.new "/v1" grandchildX))
        ⟨"/api/v1/x", "GET"⟩ ⟨0, ""⟩
      = some (Except.ok ⟨404, "Not Found"⟩) :=
  ⟨rfl, rfl,
    c8_amended_mount_does_not_compose "/api" "/v1" grandchildX
      ⟨"/api/v1/x", "GET"⟩ ⟨0, ""⟩ rfl rfl⟩

/-! ## C9: the router's own result is always Ok -/

mutual

/-- On any well-formed router whose local-path computation succeeds,
`route` resolves with `Ok`. -/
theorem Router.route_ok : ∀ (r : Router) (req : Request) (res : Response),
    Router.wfb r = true → (localPath (Router.mountPoint r) req.path).isSome = true →
    ∃ res2, Router.route r req res = some (Except.ok res2)
  | Router.mk specific regexR nested mountedP, req, res, hwf, hloc => by
    simp only [Router.mountPoint] at hloc
    obtain ⟨path, hpath⟩ := Option.isSome_iff_exists.mp hloc
    have hwf2 : RouterList.wfb nested = true := hwf
    cases hs : List.find? (exactMatches req path) specific with
    | some rt => exact ⟨runHandler rt.handler req res, by simp [Router.route, hpath, hs]⟩
    | none =>
      cases hr : List.find? (regexMatches req path) regexR with
      | some rt => exact ⟨runHandler rt.handler req res, by simp [Router.route, hpath, hs, hr]⟩
      | none =>
        obtain ⟨res2, h2⟩ := RouterList.routeNested_ok nested req res hwf2
        exact ⟨res2, by simp [Router.route, hpath, hs, hr, h2]⟩

/-- On any well-formed nested-router list, the nested scan resolves
with `Ok`. -/
theorem RouterList.routeNested_ok : ∀ (l : RouterList) (req : Request) (res : Response),
    RouterList.wfb l = true →
    ∃ res2, RouterList.routeNested l req res = some (Except.ok res2)
  | RouterList.nil, _, res, _ => ⟨notFound res, rfl⟩
  | RouterList.cons pfx child rest, req, res, hwf => by
    have h3 := hwf
    simp only [RouterList.wfb, Bool.and_eq_true, beq_iff_eq] at h3
    obtain ⟨⟨hm, hcwf⟩, hrwf⟩ := h3
    cases hc : strStartsWith req.path pfx with
    | true =>
      have hloc : (localPath (Router.mountPoint child) req.path).isSome = true := by
        rw [hm]
        exact localPath_isSome_of_startsWith pfx req.path hc
      obtain ⟨res2, h2⟩ := Router.route_ok child req res hcwf hloc
      exact ⟨res2, by simp [RouterList.routeNested, hc, h2]⟩
    | false =>
      obtain ⟨res2, h2⟩ := RouterList.routeNested_ok rest req res hrwf
      exact ⟨res2, by simp [RouterList.routeNested, hc, h2]⟩

end

/-- C9: for every well-formed router as handed to the server (mount
prefix empty, every mounted child carrying the mount point `use_router`
gave it) and every request, `Router::handle` resolves `Ok`: a matched
handler's success, a matched handler's absorbed failure, delegation and
the 404 fallback all end in `Ok`, so a caller can never observe failure
through the router's return value. -/
theorem c9_route_never_errs (r : Router) (req : Request) (res : Response)
    (hwf : Router.wfb r = true) (hroot : Router.mountPoint r = "") :
    ∃ res2, Router.handle r req res = some (Except.ok res2) := by
  have hloc : (localPath (Router.mountPoint r) req.path).isSome = true := by
    rw [hroot, localPath_empty]
    rfl
  exact Router.route_ok r req res hwf hloc

/-- Witness for C9 on a concrete router with a mounted child and a
request matching nothing. -/
theorem c9_witness :
    Router.wfb rootApi = true ∧
    ∃ res2, Router.handle rootApi ⟨"/nomatch", "GET"⟩ ⟨0, ""⟩ = some (Except.ok res2) :=
  ⟨rfl, c9_route_never_errs rootApi ⟨"/nomatch", "GET"⟩ ⟨0, ""⟩ rfl rfl⟩

/-! ## C10: safety of the mount-stripping computation -/

/-- C10: whenever the mount prefix is a string prefix of the full
request path, the slicing/trimming/prepending computation of
`Router::route` line 96 is in bounds (never panics) and its result
begins with the character '/'. -/
theorem c10_stripLocal_safe (mountedP full : String)
    (h : strStartsWith full mountedP = true) :
    ∃ s, stripLocal mountedP full = some s ∧ s.data.head? = some '/' := by
  have hlen : mountedP.length ≤ full.length :=
    strStartsWithAux_length full.data mountedP.data h
  exact ⟨String.mk ('/' :: ((full.data.drop mountedP.length).dropWhile (fun c => c == '/'))),
    by unfold stripLocal; rw [if_pos hlen], rfl⟩

/-- Witness for C10 at a concrete mount prefix and path. -/
theorem c10_witness :
    strStartsWith "/api/v1" "/api" = true ∧
    ∃ s, stripLocal "/api" "/api/v1" = some s ∧ s.data.head? = some '/' :=
  ⟨rfl, c10_stripLocal_safe "/api" "/api/v1" rfl⟩

/-! ## The well-formedness invariant holds for every router built
through the public API -/

/-- `Router::new` is well-formed. -/
theorem Router.wfb_new : Router.wfb Router.new = true := rfl

/-- `Router::new` has an empty mount prefix. -/
theorem Router.mountPoint_new : Router.mountPoint Router.new = "" := rfl

/-- Adding a route touches neither the nested routers nor the mount
prefix, so it preserves well-formedness. -/
theorem Router.wfb_add_route (r : Router) (method path : String)
    (matcher : String → Bool) (h : Handler) :
    (Router.add_route r method path matcher h).wfb = r.wfb := by
  cases r with
  | mk s rg n m =>
    simp only [Router.add_route]
    split <;> rfl

/-- Adding a route preserves the mount prefix. -/
theorem Router.mountPoint_add_route (r : Router) (method path : String)
    (matcher : String → Bool) (h : Handler) :
    (Router.add_route r method path matcher h).mountPoint = r.mountPoint := by
  cases r with
  | mk s rg n m =>
    simp only [Router.add_route]
    split <;> rfl

/-- Well-formedness of a concatenation of nested-router lists. -/
theorem RouterList.wfb_append : ∀ (l1 l2 : RouterList),
    RouterList.wfb (RouterList.append l1 l2) = (RouterList.wfb l1 && RouterList.wfb l2)
  | RouterList.nil, l2 => by simp [RouterList.append, RouterList.wfb]
  | RouterList.cons a b rest, l2 => by
    simp [RouterList.append, RouterList.wfb, RouterList.wfb_append rest l2, Bool.and_assoc]

/-- Overwriting the mount prefix leaves the nested routers unchanged. -/
theorem Router.wfb_withMounted (c : Router) (p : String) :
    (Router.withMounted c p).wfb = c.wfb := by
  cases c
  rfl

/-- Overwriting the mount prefix sets it. -/
theorem Router.mountPoint_withMounted (c : Router) (p : String) :
    (Router.withMounted c p).mountPoint = p := by
  cases c
  rfl

/-- `use_router` preserves well-formedness: the pushed child carries
exactly the mount point it is stored under. -/
theorem Router.wfb_use_router (r child : Router) (path : String)
    (hr : r.wfb = true) (hc : child.wfb = true) :
    (Router.use_router r path child).wfb = true := by
  cases r with
  | mk s rg n m =>
    have hn : RouterList.wfb n = true := hr
    simp [Router.use_router, Router.wfb, RouterList.wfb_append, RouterList.wfb,
      Router.mountPoint_withMounted, Router.wfb_withMounted, hn, hc]

/-- `use_router` preserves the mount prefix of the parent. -/
theorem Router.mountPoint_use_router (r child : Router) (path : String) :
    (Router.use_router r path child).mountPoint = r.mountPoint := by
  cases r
  rfl
